import Mathlib

/-!
Verification of `felt/node/background_worker.py`: the background worker that
reads startup configuration from a ledger and then runs the supervisor loop
exchanging commands with a coordination server over a websocket.

The embedding is a deterministic small-step machine over explicit
environments: `LedgerEnv` gives the outcomes of the ledger-side reads made on
lines 19-25, and `NetEnv` gives the outcomes of the coordination-server
operations (connect on line 28, send on line 33, receive on line 34).
-/

namespace BackgroundWorker

/-- Python-level exceptions that can arise in the worker.  `connectionClosed`
stands for `websockets.ConnectionClosed` (the only class caught, lines 37-38);
`typeError` for `TypeError`; `oserror` for the `OSError`-family failures of a
refused connection or an unreachable HTTP endpoint; `keyError` for a missing
dictionary key. -/
inductive PyErr
  | typeError
  | connectionClosed
  | oserror
  | keyError
  deriving DecidableEq, Repr

/-- Address and ABI of one entry of the contract registry, as the dictionary
returned for each name carries them. -/
structure ContractInfo where
  address : String
  abi : String
  deriving DecidableEq, Repr

/-- A bound web3 contract object, the result of
`w3.eth.contract(address=c["address"], abi=c["abi"])` on line 23. -/
structure ContractObj where
  address : String
  abi : String
  deriving DecidableEq, Repr

/-- Outcomes of the ledger-side external calls made at startup, lines 19-25.
Each field is the value the external collaborator would return at call time;
the environment is fixed for a run, standing for an unchanged ledger state. -/
structure LedgerEnv where
  /-- Result of reading `w3.eth.chain_id` (lines 20-21). -/
  chain_id : Except PyErr Nat
  /-- Modelled from the spec: `load_contracts` comes from
  `felt.node.utils.contracts`, which is not among the sources.  The spec calls
  the contract registry "an external collaborator providing, per target chain
  id, a mapping from logical contract name to address and ABI" and says "the
  core treats this as an opaque lookup keyed by chain id", so it is modelled
  as an opaque total lookup from chain id to an association list. -/
  load_contracts : Nat → List (String × ContractInfo)
  /-- Result of constructing the bound contract object on line 23. -/
  bindContract : ContractInfo → Except PyErr ContractObj
  /-- Result of `functions.activationFee().call()` on line 25. -/
  activationFee : ContractObj → Except PyErr Nat

/-- The startup snapshot built by lines 19-25: chain id, the contract mapping
together with its bound contract objects, and the activation fee obtained by
the verification read. -/
structure LedgerConfig where
  chainId : Nat
  contracts : List (String × ContractInfo × ContractObj)
  fee : Nat
  deriving DecidableEq, Repr

/-- The loop on lines 22-23: bind every registry entry to a contract object,
in order; the first failing bind raises out of `task` (there is no handler). -/
def bindAll (env : LedgerEnv) :
    List (String × ContractInfo) →
    Except PyErr (List (String × ContractInfo × ContractObj))
  | [] => Except.ok []
  | (k, c) :: rest =>
    match env.bindContract c with
    | Except.error e => Except.error e
    | Except.ok obj =>
      match bindAll env rest with
      | Except.error e => Except.error e
      | Except.ok tail => Except.ok ((k, c, obj) :: tail)

/-- Lines 19-25 of `task`: read the chain id, load the registry for that chain
id, bind each contract, then look up `"ContractManager"` (a missing key raises
`KeyError`) and perform the activation-fee verification read.  Any failure
propagates: this startup part is outside every `try`. -/
def loadConfig (env : LedgerEnv) : Except PyErr LedgerConfig :=
  match env.chain_id with
  | Except.error e => Except.error e
  | Except.ok cid =>
    match bindAll env (env.load_contracts cid) with
    | Except.error e => Except.error e
    | Except.ok bound =>
      match List.lookup "ContractManager" bound with
      | none => Except.error PyErr.keyError
      | some p =>
        match env.activationFee p.2 with
        | Except.error e => Except.error e
        | Except.ok fee => Except.ok { chainId := cid, contracts := bound, fee := fee }

/-- Lines 13-15: `producer(federated_contract)` sleeps 3 seconds and then
returns the placeholder command `"p"`; the parameter is never used.  The
result pairs the seconds slept with the returned command. -/
def producer (federated_contract : ContractObj) : Nat × String :=
  (3, "p")

/-- Python call semantics for a function with exactly one required positional
parameter and no defaults: binding the argument list to the parameter raises
`TypeError` when the count is wrong. -/
def bindOneParam (args : List ContractObj) : Except PyErr ContractObj :=
  match args with
  | [a] => Except.ok a
  | _ => Except.error PyErr.typeError

/-- Line 31: `cmd = await producer()` calls the one-parameter `producer` with
an empty argument list, so argument binding raises `TypeError` before the body
(the sleep and the return) ever runs. -/
def producerCallNoArgs : Except PyErr (Nat × String) :=
  match bindOneParam [] with
  | Except.error e => Except.error e
  | Except.ok c => Except.ok (producer c)

/-- Observable events of a run of `task`. -/
inductive Event
  | connectAttempt (sid : Nat)
  | connectOk (sid : Nat)
  | sessionClosed (sid : Nat)
  | slept (secs : Nat)
  | sent (sid : Nat) (cmd : String)
  | received (sid : Nat) (resp : String)
  deriving DecidableEq, Repr

/-- Control position inside `task`.  `crashed e` means the exception `e`
escaped `task`: it was propagated to the caller of the run function
(`asyncio.run` inside `main`, line 42) and the loop is over. -/
inductive Phase
  | loadCfg
  | connecting
  | inSession (sid : Nat) (iter : Nat)
  | crashed (e : PyErr)
  deriving DecidableEq, Repr

/-- State of a run.  `openSessions` lists the ids of the live websocket
sessions: a successful `websockets.connect` adds one and leaving the
`async with` block (by `continue` or by an escaping exception) removes it, as
the context manager closes the socket on exit either way. -/
structure St where
  phase : Phase
  config : Option LedgerConfig
  openSessions : List Nat
  nextSid : Nat
  trace : List Event
  deriving DecidableEq, Repr

/-- Outcomes of the coordination-server side: the result of the n-th connect
attempt (line 28), and of each send (line 33) and receive (line 34), indexed
by session id and by exchange number within the session. -/
structure NetEnv where
  connect : Nat → Except PyErr Unit
  send : Nat → Nat → String → Except PyErr Unit
  recv : Nat → Nat → Except PyErr String

/-- One scheduling step of `task` (lines 18-38).  From `loadCfg` it performs
the whole startup read (lines 19-25).  From `connecting` it attempts
`websockets.connect(URL)` (line 28); the `try` begins only inside the
`async with`, so a failed connect attempt is not caught by anything and
crashes the task.  From `inSession` it runs one iteration of the inner loop
(lines 30-35): the producer call, then the send and the receive; inside this
body `websockets.ConnectionClosed` is caught by lines 37-38 and `continue`
returns to reconnecting after the session is closed, while any other
exception escapes, the `async with` closing the session on the way out. -/
def step (lenv : LedgerEnv) (net : NetEnv) (s : St) : St :=
  match s.phase with
  | Phase.loadCfg =>
    match loadConfig lenv with
    | Except.error e => { s with phase := Phase.crashed e }
    | Except.ok cfg => { s with phase := Phase.connecting, config := some cfg }
  | Phase.connecting =>
    match net.connect s.nextSid with
    | Except.error e =>
      { s with phase := Phase.crashed e,
               trace := s.trace ++ [Event.connectAttempt s.nextSid] }
    | Except.ok _ =>
      { s with phase := Phase.inSession s.nextSid 0,
               openSessions := s.openSessions ++ [s.nextSid],
               nextSid := s.nextSid + 1,
               trace := s.trace ++ [Event.connectAttempt s.nextSid,
                                    Event.connectOk s.nextSid] }
  | Phase.inSession sid iter =>
    match producerCallNoArgs with
    | Except.error e =>
      if e = PyErr.connectionClosed then
        { s with phase := Phase.connecting,
                 openSessions := s.openSessions.filter (fun x => x != sid),
                 trace := s.trace ++ [Event.sessionClosed sid] }
      else
        { s with phase := Phase.crashed e,
                 openSessions := s.openSessions.filter (fun x => x != sid),
                 trace := s.trace ++ [Event.sessionClosed sid] }
    | Except.ok pc =>
      let s1 : St := { s with trace := s.trace ++ [Event.slept pc.1] }
      match net.send sid iter pc.2 with
      | Except.error e =>
        if e = PyErr.connectionClosed then
          { s1 with phase := Phase.connecting,
                    openSessions := s1.openSessions.filter (fun x => x != sid),
                    trace := s1.trace ++ [Event.sessionClosed sid] }
        else
          { s1 with phase := Phase.crashed e,
                    openSessions := s1.openSessions.filter (fun x => x != sid),
                    trace := s1.trace ++ [Event.sessionClosed sid] }
      | Except.ok _ =>
        let s2 : St := { s1 with trace := s1.trace ++ [Event.sent sid pc.2] }
        match net.recv sid iter with
        | Except.error e =>
          if e = PyErr.connectionClosed then
            { s2 with phase := Phase.connecting,
                      openSessions := s2.openSessions.filter (fun x => x != sid),
                      trace := s2.trace ++ [Event.sessionClosed sid] }
          else
            { s2 with phase := Phase.crashed e,
                      openSessions := s2.openSessions.filter (fun x => x != sid),
                      trace := s2.trace ++ [Event.sessionClosed sid] }
        | Except.ok r =>
          { s2 with phase := Phase.inSession sid (iter + 1),
                    trace := s2.trace ++ [Event.received sid r] }
  | Phase.crashed _ => s

/-- Initial state: `task` begins at the startup reads, nothing connected. -/
def initSt : St :=
  { phase := Phase.loadCfg, config := none, openSessions := [], nextSid := 0,
    trace := [] }

/-- The state after the first `k` scheduling steps of `task` under the given
external outcomes. -/
def runSteps (lenv : LedgerEnv) (net : NetEnv) : Nat → St
  | 0 => initSt
  | Nat.succ k => step lenv net (runSteps lenv net k)

/-- The registry entry the code requires under the name `"ContractManager"`. -/
def cmInfo : ContractInfo := { address := "0xCM", abi := "abiCM" }

/-- A ledger whose startup reads all succeed. -/
def lenvOk : LedgerEnv :=
  { chain_id := Except.ok 1337,
    load_contracts := fun _ => [("ContractManager", cmInfo)],
    bindContract := fun c => Except.ok { address := c.address, abi := c.abi },
    activationFee := fun _ => Except.ok 42 }

/-- A ledger whose chain-id read fails at startup (endpoint unreachable). -/
def lenvDown : LedgerEnv :=
  { chain_id := Except.error PyErr.oserror,
    load_contracts := fun _ => [],
    bindContract := fun _ => Except.error PyErr.oserror,
    activationFee := fun _ => Except.error PyErr.oserror }

/-- A connect oracle that accepts every attempt. -/
def acceptAll : Nat → Except PyErr Unit := fun _ => Except.ok ()

/-- A coordination server that accepts every connection, acknowledges every
send, and answers `resp` to every receive. -/
def netWith (resp : String) : NetEnv :=
  { connect := acceptAll,
    send := fun _ _ _ => Except.ok (),
    recv := fun _ _ => Except.ok resp }

/-- A coordination server that never accepts a connection. -/
def netRefuse : NetEnv :=
  { connect := fun _ => Except.error PyErr.oserror,
    send := fun _ _ _ => Except.error PyErr.oserror,
    recv := fun _ _ => Except.error PyErr.oserror }

/-- The commands carried by `sent` events of a state's trace, in order. -/
def sentCmds (s : St) : List String :=
  s.trace.filterMap (fun e =>
    match e with
    | Event.sent _ c => some c
    | _ => none)

/-- Whether an event is a send or a receive on the command channel. -/
def isExchangeEvent : Event → Bool
  | Event.sent _ _ => true
  | Event.received _ _ => true
  | _ => false

/-- Session bookkeeping invariant: inside a session exactly that session is
open; in every other phase no session is open. -/
def sessInv (s : St) : Prop :=
  match s.phase with
  | Phase.inSession sid _ => s.openSessions = [sid]
  | _ => s.openSessions = []

theorem producerCall_eq : producerCallNoArgs = Except.error PyErr.typeError := rfl

theorem sessInv_step (lenv : LedgerEnv) (net : NetEnv) (s : St) (h : sessInv s) :
    sessInv (step lenv net s) := by
  cases hp : s.phase with
  | loadCfg =>
    simp only [sessInv, hp] at h
    cases hL : loadConfig lenv <;> simp [step, sessInv, hp, hL, h]
  | connecting =>
    simp only [sessInv, hp] at h
    cases hC : net.connect s.nextSid <;> simp [step, sessInv, hp, hC, h]
  | inSession sid iter =>
    simp only [sessInv, hp] at h
    simp [step, sessInv, hp, producerCall_eq, h]
  | crashed e =>
    simp only [sessInv, hp] at h
    simp [step, sessInv, hp, h]

theorem sessInv_runSteps (lenv : LedgerEnv) (net : NetEnv) (k : Nat) :
    sessInv (runSteps lenv net k) := by
  induction k with
  | zero => simp [runSteps, initSt, sessInv]
  | succ k ih => exact sessInv_step lenv net _ ih

theorem step_crashed (lenv : LedgerEnv) (net : NetEnv) (s : St) (e : PyErr)
    (h : s.phase = Phase.crashed e) : step lenv net s = s := by
  simp [step, h]

theorem step_no_exchange (lenv : LedgerEnv) (net : NetEnv) (s : St)
    (h : s.trace.filter isExchangeEvent = []) :
    (step lenv net s).trace.filter isExchangeEvent = [] := by
  cases hp : s.phase with
  | loadCfg =>
    cases hL : loadConfig lenv <;> simp [step, hp, hL, h]
  | connecting =>
    cases hC : net.connect s.nextSid <;>
      simp [step, hp, hC, List.filter_append, h, isExchangeEvent]
  | inSession sid iter =>
    simp [step, hp, producerCall_eq, List.filter_append, h, isExchangeEvent]
  | crashed e =>
    simp [step, hp, h]

theorem step_indep_of_responses (lenv : LedgerEnv) (net1 net2 : NetEnv) (s : St)
    (hc : net1.connect = net2.connect) : step lenv net1 s = step lenv net2 s := by
  cases hp : s.phase with
  | loadCfg => simp [step, hp]
  | connecting => simp [step, hp, hc]
  | inSession sid iter => simp [step, hp, producerCall_eq]
  | crashed e => simp [step, hp]

theorem runSteps_indep_of_responses (lenv : LedgerEnv) (net1 net2 : NetEnv)
    (hc : net1.connect = net2.connect) (k : Nat) :
    runSteps lenv net1 k = runSteps lenv net2 k := by
  induction k with
  | zero => rfl
  | succ k ih =>
    have h1 : runSteps lenv net1 (k + 1) = step lenv net1 (runSteps lenv net1 k) := rfl
    have h2 : runSteps lenv net2 (k + 1) = step lenv net2 (runSteps lenv net2 k) := rfl
    rw [h1, h2, ih]
    exact step_indep_of_responses lenv net1 net2 (runSteps lenv net2 k) hc

/-- The snapshot `loadConfig` produces for the healthy ledger `lenvOk`. -/
def cfgOk : LedgerConfig :=
  { chainId := 1337,
    contracts := [("ContractManager", cmInfo, { address := "0xCM", abi := "abiCM" })],
    fee := 42 }

/-- Claim C1 (counterexample): against a server that never accepts connections
the supervisor does not retry: the very first failed connect attempt leaves
the run crashed with the connect error — the channel error was propagated to
the caller of the worker's run function — and it is still crashed one step
later.  The `try` on line 29 begins only inside the `async with` of line 28,
so nothing catches a connect failure. -/
theorem server_never_accepts_crashes_run :
    (runSteps lenvOk netRefuse 2).phase = Phase.crashed PyErr.oserror ∧
    (runSteps lenvOk netRefuse 3).phase = Phase.crashed PyErr.oserror :=
  ⟨rfl, rfl⟩

/-- Claim C1 (amended): a channel error raised while establishing the
connection is not absorbed — from the connecting phase, a failed connect
attempt moves the supervisor straight to the crashed phase, propagating the
error to the caller of the worker's run function instead of reconnecting. -/
theorem connect_error_propagates (lenv : LedgerEnv) (net : NetEnv) (s : St) (e : PyErr)
    (hc : s.phase = Phase.connecting) (he : net.connect s.nextSid = Except.error e) :
    (step lenv net s).phase = Phase.crashed e := by
  simp [step, hc, he]

/-- Claim C1 (witness): the amended statement at a concrete run in which the
server refuses the first connect attempt. -/
theorem connect_error_propagates_witness :
    (step lenvOk netRefuse (runSteps lenvOk netRefuse 1)).phase =
      Phase.crashed PyErr.oserror :=
  connect_error_propagates lenvOk netRefuse (runSteps lenvOk netRefuse 1)
    PyErr.oserror rfl rfl

/-- Claim C2 (code bug): the exchange loop's producer invocation on line 31
passes no argument to the one-parameter `producer`, so the call raises
`TypeError` instead of returning a command. -/
theorem producer_invocation_raises :
    producerCallNoArgs = Except.error PyErr.typeError :=
  rfl

/-- Claim C3 (code bug): with a server that accepts the connection, the
session is established (step 2) and then crashes with the producer
`TypeError` before any send (step 3): no command is ever sent, and the run
does not reconnect — it is still crashed at step 4. -/
theorem session_crashes_before_any_send :
    (runSteps lenvOk (netWith "r1") 2).phase = Phase.inSession 0 0 ∧
    (runSteps lenvOk (netWith "r1") 3).phase = Phase.crashed PyErr.typeError ∧
    sentCmds (runSteps lenvOk (netWith "r1") 3) = [] ∧
    (runSteps lenvOk (netWith "r1") 4).phase = Phase.crashed PyErr.typeError :=
  ⟨rfl, rfl, rfl, rfl⟩

/-- Claim C4: in every reachable state of the supervisor loop, under any
ledger and server behaviour, at most one live session exists, and while the
loop is in the connecting phase no session from a previous connection is
still open — a new connection is only made after the previous session has
been destroyed. -/
theorem at_most_one_session (lenv : LedgerEnv) (net : NetEnv) (k : Nat) :
    (runSteps lenv net k).openSessions.length ≤ 1 ∧
    ((runSteps lenv net k).phase = Phase.connecting →
      (runSteps lenv net k).openSessions = []) := by
  have h := sessInv_runSteps lenv net k
  cases hp : (runSteps lenv net k).phase with
  | loadCfg =>
    simp only [sessInv, hp] at h
    simp [h]
  | connecting =>
    simp only [sessInv, hp] at h
    simp [h]
  | inSession sid iter =>
    simp only [sessInv, hp] at h
    simp [h]
  | crashed e =>
    simp only [sessInv, hp] at h
    simp [h]

/-- Claim C4 (witness): the session bound at a concrete reachable state with
an open session, and the empty session list at a concrete state in the
connecting phase. -/
theorem at_most_one_session_witness :
    (runSteps lenvOk (netWith "r") 2).openSessions.length ≤ 1 ∧
    (runSteps lenvOk (netWith "r") 1).openSessions = [] :=
  ⟨(at_most_one_session lenvOk (netWith "r") 2).1,
   (at_most_one_session lenvOk (netWith "r") 1).2 (by decide)⟩

/-- Claim C5 (code bug): under every ledger and every server behaviour, no
run of the worker ever records a send or a receive on the channel — the
producer `TypeError` of line 31 ends every session before its first send, so
the claimed one-send-one-receive alternation never takes place at all. -/
theorem no_exchange_ever_happens (lenv : LedgerEnv) (net : NetEnv) (k : Nat) :
    (runSteps lenv net k).trace.filter isExchangeEvent = [] := by
  induction k with
  | zero => rfl
  | succ k ih => exact step_no_exchange lenv net _ ih

/-- Claim C6: if the startup read fails, every later state of the run is
crashed with that very error — the error is surfaced, not retried — and the
trace stays empty: no connect attempt is ever made, so the
connection/reconnect loop is never entered. -/
theorem startup_failure_is_fatal (lenv : LedgerEnv) (net : NetEnv) (e : PyErr)
    (h : loadConfig lenv = Except.error e) (k : Nat) :
    (runSteps lenv net (Nat.succ k)).phase = Phase.crashed e ∧
    (runSteps lenv net (Nat.succ k)).trace = [] := by
  induction k with
  | zero =>
    have h0 : runSteps lenv net (Nat.succ 0) = step lenv net initSt := rfl
    rw [h0]
    simp [step, initSt, h]
  | succ k ih =>
    obtain ⟨h1, h2⟩ := ih
    have h0 : runSteps lenv net (Nat.succ (Nat.succ k)) =
        step lenv net (runSteps lenv net (Nat.succ k)) := rfl
    rw [h0, step_crashed lenv net _ e h1]
    exact ⟨h1, h2⟩

/-- Claim C6 (witness): the fatal-startup statement at a concrete unreachable
ledger, three steps into the run. -/
theorem startup_failure_is_fatal_witness :
    (runSteps lenvDown (netWith "r") (Nat.succ 2)).phase =
      Phase.crashed PyErr.oserror ∧
    (runSteps lenvDown (netWith "r") (Nat.succ 2)).trace = [] :=
  startup_failure_is_fatal lenvDown (netWith "r") PyErr.oserror rfl 2

/-- Claim C7: applied to any contract-handle argument, the producer waits the
fixed 3-second pacing interval and returns the constant placeholder command
"p", independent of the argument's value. -/
theorem producer_constant (c1 c2 : ContractObj) :
    producer c1 = (3, "p") ∧ producer c1 = producer c2 :=
  ⟨rfl, rfl⟩

/-- Claim C8: every step taken after startup — every iteration of the
connection and exchange loop, in whatever phase it is — leaves the
`LedgerConfig` snapshot unchanged. -/
theorem config_never_mutated (lenv : LedgerEnv) (net : NetEnv) (s : St)
    (h : s.phase ≠ Phase.loadCfg) : (step lenv net s).config = s.config := by
  cases hp : s.phase with
  | loadCfg => exact absurd hp h
  | connecting => cases hC : net.connect s.nextSid <;> simp [step, hp, hC]
  | inSession sid iter => simp [step, hp, producerCall_eq]
  | crashed e => simp [step, hp]

/-- Claim C8 (witness): the frame statement at the concrete reachable state
one step into a healthy run, which is past startup. -/
theorem config_never_mutated_witness :
    (step lenvOk (netWith "r") (runSteps lenvOk (netWith "r") 1)).config =
      (runSteps lenvOk (netWith "r") 1).config :=
  config_never_mutated lenvOk (netWith "r") (runSteps lenvOk (netWith "r") 1)
    (by decide)

/-- Claim C9: the startup configuration load is idempotent — two calls
against the same unchanged ledger environment yield equal `LedgerConfig`
snapshots. -/
theorem loadConfig_idempotent (env : LedgerEnv) (c1 c2 : LedgerConfig)
    (h1 : loadConfig env = Except.ok c1) (h2 : loadConfig env = Except.ok c2) :
    c1 = c2 :=
  Except.ok.inj (h1.symm.trans h2)

/-- Claim C9 (witness): idempotence at the concrete healthy ledger, whose
load succeeds with the snapshot `cfgOk` both times. -/
theorem loadConfig_idempotent_witness : cfgOk = cfgOk :=
  loadConfig_idempotent lenvOk cfgOk cfgOk rfl rfl

/-- Claim C10: the content of received responses never influences outbound
behaviour — two runs against servers that accept connections alike and
acknowledge sends alike but reply with arbitrarily different payloads emit
identical sequences of sent commands. -/
theorem responses_never_influence_sends (lenv : LedgerEnv) (net1 net2 : NetEnv)
    (k : Nat) (hc : net1.connect = net2.connect) (hs : net1.send = net2.send) :
    sentCmds (runSteps lenv net1 k) = sentCmds (runSteps lenv net2 k) := by
  rw [runSteps_indep_of_responses lenv net1 net2 hc k]

/-- Claim C10 (witness): two concrete servers that differ only in the
response payload they return lead to equal sent-command sequences. -/
theorem responses_never_influence_sends_witness :
    sentCmds (runSteps lenvOk (netWith "r1") 5) =
      sentCmds (runSteps lenvOk (netWith "r2") 5) :=
  responses_never_influence_sends lenvOk (netWith "r1") (netWith "r2") 5 rfl rfl

end BackgroundWorker
